import Mathlib

/-!
Shallow embedding of `server.js` (a chat-completions proxy in two
near-duplicate variants, separated in the file by a document separator).
Definitions suffixed `2` embed the second variant (lines 142-255); the
unsuffixed ones embed the first variant (lines 1-141).
-/

namespace Server

/-- A chat message `{role, content}` as received in the request body. -/
structure Message where
  role : String
  content : String
deriving DecidableEq, Repr

/-- An element of an upstream array payload: a JSON object whose
`generated_text` field may be absent. -/
structure JObj where
  generated_text : Option String
deriving DecidableEq, Repr

/-- The three upstream payload shapes handled by the extraction code:
an array of objects, a single object with an optional `generated_text`
field, or a bare string. -/
inductive Payload where
  | arr (elems : List JObj)
  | obj (generated_text : Option String)
  | str (s : String)
deriving DecidableEq, Repr

/-- JavaScript `x || y` on strings: the empty string is falsy. -/
def jsOr (x y : String) : String := if x = "" then y else x

/-- JavaScript `String.prototype.trim()`: drop whitespace from both ends
(embedded over the character list so it is kernel-computable). -/
def jsTrim (s : String) : String :=
  ⟨((s.data.dropWhile Char.isWhitespace).reverse.dropWhile Char.isWhitespace).reverse⟩

/-- The fixed fallback text of variant 1 (server.js line 107). -/
def apology : String :=
  "I apologize, but I was unable to generate a response. Please try again."

/-- Loop body of variant 1 `messagesToPrompt` (server.js lines 38-42).
Note the `system` branch appends the bare content with no role tag. -/
def promptStep (prompt : String) (msg : Message) : String :=
  if msg.role = "system" then prompt ++ msg.content ++ "\n\n"
  else if msg.role = "user" then prompt ++ "User: " ++ msg.content ++ "\n\n"
  else if msg.role = "assistant" then prompt ++ "Assistant: " ++ msg.content ++ "\n\n"
  else prompt

/-- Variant 1 `messagesToPrompt` (server.js lines 36-45). -/
def messagesToPrompt (messages : List Message) : String :=
  (messages.foldl promptStep "") ++ "Assistant:"

/-- Loop body of variant 2 `messagesToPrompt` (server.js lines 179-183):
same as variant 1 but the `system` branch writes a `System: ` role tag. -/
def promptStep2 (prompt : String) (msg : Message) : String :=
  if msg.role = "system" then prompt ++ "System: " ++ msg.content ++ "\n\n"
  else if msg.role = "user" then prompt ++ "User: " ++ msg.content ++ "\n\n"
  else if msg.role = "assistant" then prompt ++ "Assistant: " ++ msg.content ++ "\n\n"
  else prompt

/-- Variant 2 `messagesToPrompt` (server.js lines 177-186). -/
def messagesToPrompt2 (messages : List Message) : String :=
  (messages.foldl promptStep2 "") ++ "Assistant:"

/-- Variant 1 text extraction (server.js lines 91-102):
`Array.isArray(data)` → `data[0]?.generated_text || ''`;
else if `data.generated_text` (truthy) → that field;
else if `typeof data === 'string'` → the string; else `''`. -/
def extractText : Payload → String
  | .arr elems =>
    match elems.head? with
    | some o => jsOr (o.generated_text.getD "") ""
    | none => ""
  | .obj g =>
    match g with
    | some t => if t = "" then "" else t
    | none => ""
  | .str s => s

/-- Variant 1 empty-text fallback (server.js lines 106-108):
`if (!text || text.trim() === '') text = apology`. -/
def normalizeText (p : Payload) : String :=
  let text := extractText p
  if text = "" ∨ jsTrim text = "" then apology else text

/-- Variant 2 text extraction (server.js line 224):
`response.data[0]?.generated_text || 'No response'`.  Indexing `[0]` on a
non-array object yields `undefined`, and on a string yields a one-character
string; in both cases `.generated_text` is `undefined`, so the `||` falls
through to `'No response'`. -/
def extractText2 : Payload → String
  | .arr elems =>
    match elems.head? with
    | some o => jsOr (o.generated_text.getD "") "No response"
    | none => "No response"
  | .obj _ => "No response"
  | .str _ => "No response"

/-- Outbound `parameters` object of the upstream POST body. -/
structure UpstreamParams where
  max_new_tokens : Nat
  temperature : ℚ
  top_p : Option ℚ
  do_sample : Option Bool
  return_full_text : Bool
deriving DecidableEq, Repr

/-- Outbound `options` object of the upstream POST body. -/
structure UpstreamOptions where
  wait_for_model : Bool
  use_cache : Option Bool
deriving DecidableEq, Repr

/-- The full outbound upstream POST body. -/
structure UpstreamBody where
  inputs : String
  parameters : UpstreamParams
  options : UpstreamOptions
deriving DecidableEq, Repr

/-- The caller's chat request body.  The handler destructures only
`messages` and `max_tokens` (`const { messages, max_tokens = 1024 } =
req.body`); the remaining fields are carried to state insensitivity
properties. -/
structure ChatRequest where
  messages : List Message
  max_tokens : Option Nat
  temperature : Option ℚ
  top_p : Option ℚ
  stream : Option Bool
deriving DecidableEq, Repr

/-- Variant 1 outbound body (server.js lines 66-78). -/
def buildUpstreamBody (req : ChatRequest) : UpstreamBody :=
  { inputs := messagesToPrompt req.messages
    parameters :=
      { max_new_tokens := req.max_tokens.getD 1024
        temperature := 0.7
        top_p := some 0.9
        do_sample := some true
        return_full_text := false }
    options := { wait_for_model := true, use_cache := some false } }

/-- Variant 2 outbound body (server.js lines 207-214): no `top_p`,
`do_sample` or `use_cache` keys. -/
def buildUpstreamBody2 (req : ChatRequest) : UpstreamBody :=
  { inputs := messagesToPrompt2 req.messages
    parameters :=
      { max_new_tokens := req.max_tokens.getD 1024
        temperature := 0.7
        top_p := none
        do_sample := none
        return_full_text := false }
    options := { wait_for_model := true, use_cache := none } }

/-- Outcome of the single upstream `axios.post`: a payload on success, or
a failure carrying the optional HTTP status, the optional
`error.response.data.error` string, and `error.message`. -/
inductive UpstreamResult where
  | success (data : Payload)
  | failure (status : Option Nat) (dataError : Option String) (message : String)
deriving DecidableEq, Repr

/-- JSON error body `{message, type?, code?}`.  The source only ever sets
`message`; `type` and `code` are carried to state their absence. -/
structure ErrorBody where
  message : String
  type : Option String
  code : Option Nat
deriving DecidableEq, Repr

/-- One element of the `choices` array of a chat response. -/
structure Choice where
  index : Nat
  message : Message
  finish_reason : String
deriving DecidableEq, Repr

/-- The successful chat-completion response object. -/
structure ChatResponse where
  id : String
  object : String
  created : Nat
  model : String
  choices : List Choice
deriving DecidableEq, Repr

/-- Result of a chat handler: `res.json(body)` (HTTP 200) or
`res.status(s).json({error})`. -/
inductive HandlerResult where
  | ok (body : ChatResponse)
  | err (status : Nat) (body : ErrorBody)
deriving DecidableEq, Repr

/-- The success response object (server.js lines 110-120 and 226-236);
`now` stands for `Date.now()` in milliseconds. -/
def mkChatResponse (now : Nat) (text : String) : ChatResponse :=
  { id := "chatcmpl-" ++ toString now
    object := "chat.completion"
    created := now / 1000
    model := "deepseek-r1"
    choices :=
      [{ index := 0
         message := { role := "assistant", content := text }
         finish_reason := "stop" }] }

/-- The catch-block message `error.response?.data?.error || error.message`
(server.js lines 127-129 and 241-243). -/
def catchMessage (dataError : Option String) (message : String) : String :=
  match dataError with
  | some e => jsOr e message
  | none => message

/-- Variant 1 `handleChat` (server.js lines 51-131).  `hasKey` is the
presence of `HF_API_KEY`; `upstream` is the oracle for the single
`axios.post`, applied to the outbound body.  The second component records
whether the upstream call was made. -/
def handleChat (hasKey : Bool) (now : Nat) (req : ChatRequest)
    (upstream : UpstreamBody → UpstreamResult) : HandlerResult × Bool :=
  if !hasKey then
    (.err 500 { message := "HF_API_KEY not set", type := none, code := none }, false)
  else
    match upstream (buildUpstreamBody req) with
    | .success data => (.ok (mkChatResponse now (normalizeText data)), true)
    | .failure _ dataError message =>
      (.err 500 { message := catchMessage dataError message, type := none, code := none }, true)

/-- Variant 2 `handleChat` (server.js lines 192-245): identical control
flow, but the success text is `data[0]?.generated_text || 'No response'`
with no whitespace fallback. -/
def handleChat2 (hasKey : Bool) (now : Nat) (req : ChatRequest)
    (upstream : UpstreamBody → UpstreamResult) : HandlerResult × Bool :=
  if !hasKey then
    (.err 500 { message := "HF_API_KEY not set", type := none, code := none }, false)
  else
    match upstream (buildUpstreamBody2 req) with
    | .success data => (.ok (mkChatResponse now (extractText2 data)), true)
    | .failure _ dataError message =>
      (.err 500 { message := catchMessage dataError message, type := none, code := none }, true)

/-- HTTP methods distinguished by the express routes. -/
inductive Method where
  | get | post | put | delete
deriving DecidableEq, Repr

/-- Which registered express route matches, in registration order
(server.js lines 19, 28, 48-49, 134). -/
inductive RouteTarget where
  | health | models | chat | notFound
deriving DecidableEq, Repr

/-- Express dispatch over the registered routes; `app.all('*')` is the
final catch-all. -/
def route (m : Method) (p : String) : RouteTarget :=
  if m = .get ∧ p = "/health" then .health
  else if m = .get ∧ p = "/v1/models" then .models
  else if m = .post ∧ p = "/v1/chat/completions" then .chat
  else if m = .post ∧ p = "/chat/completions" then .chat
  else .notFound

/-- A reply from the server, abstracting the bodies of the boilerplate
endpoints. -/
inductive ServerReply where
  | health
  | models
  | chat (result : HandlerResult)
  | notFound (status : Nat) (body : ErrorBody)
deriving DecidableEq, Repr

/-- Whole-server dispatch for variant 1: route, then either a boilerplate
endpoint, the chat handler, or the catch-all
`res.status(404).json({error:{message:`Path ... not found`}})`. -/
def serve (m : Method) (p : String) (hasKey : Bool) (now : Nat)
    (req : ChatRequest) (u : UpstreamBody → UpstreamResult) : ServerReply :=
  match route m p with
  | .health => .health
  | .models => .models
  | .chat => .chat (handleChat hasKey now req u).1
  | .notFound =>
    .notFound 404 { message := "Path " ++ p ++ " not found", type := none, code := none }

/-- Modelled from the spec: `stripReasoning` is described in §4.1 but no
variant under `src/` implements it.  A generation result is modelled as a
list of symbols, where a symbol is an ordinary character or one of the
two reasoning markers (the opening/closing markup is tokenized). -/
inductive Sym where
  | ch (c : Char)
  | openM
  | closeM
deriving DecidableEq, Repr

/-- Whitespace test on symbols; markers are never whitespace. -/
def isWsSym : Sym → Bool
  | .ch c => c.isWhitespace
  | _ => false

/-- Modelled from the spec: trim surrounding whitespace. -/
def trimSyms (l : List Sym) : List Sym :=
  ((l.dropWhile isWsSym).reverse.dropWhile isWsSym).reverse

/-- Modelled from the spec: one left-to-right non-greedy scan.  `buf`
is `some` of the symbols held back since an as-yet-unmatched opening
marker (the marker included); the first closing marker discards the held
span, and a span whose opener is never closed is emitted verbatim, as a
non-greedy regex replacement would leave it. -/
def stripGo : List Sym → Option (List Sym) → List Sym
  | [], none => []
  | [], some buf => buf
  | .openM :: r, none => stripGo r (some [Sym.openM])
  | .closeM :: r, none => Sym.closeM :: stripGo r none
  | .ch c :: r, none => Sym.ch c :: stripGo r none
  | .closeM :: r, some _ => stripGo r none
  | .openM :: r, some buf => stripGo r (some (buf ++ [Sym.openM]))
  | .ch c :: r, some buf => stripGo r (some (buf ++ [Sym.ch c]))

/-- Modelled from the spec: remove every substring delimited by an
opening and matching closing reasoning marker, non-greedily. -/
def stripSyms (l : List Sym) : List Sym := stripGo l none

/-- Modelled from the spec: if `showReasoning` is false, remove the
delimited reasoning spans and trim surrounding whitespace; if true,
return the text unchanged. -/
def stripReasoning (t : List Sym) (showReasoning : Bool) : List Sym :=
  if showReasoning then t else trimSyms (stripSyms t)

/-- Spec-side role tag of C1: `System`, `User` or `Assistant`. -/
def roleTag (role : String) : String :=
  if role = "system" then "System"
  else if role = "user" then "User"
  else "Assistant"

/-- Spec-side per-message block of C1: `"{RolePrefix}: {content}\n\n"`. -/
def specBlock (m : Message) : String :=
  roleTag m.role ++ ": " ++ m.content ++ "\n\n"

/-- Per-message block actually appended by variant 1: system messages
carry no role tag. -/
def bareSystemBlock (m : Message) : String :=
  if m.role = "system" then m.content ++ "\n\n"
  else if m.role = "user" then "User: " ++ m.content ++ "\n\n"
  else if m.role = "assistant" then "Assistant: " ++ m.content ++ "\n\n"
  else ""

/-- Per-message block actually appended by variant 2. -/
def taggedBlock (m : Message) : String :=
  if m.role = "system" then "System: " ++ m.content ++ "\n\n"
  else if m.role = "user" then "User: " ++ m.content ++ "\n\n"
  else if m.role = "assistant" then "Assistant: " ++ m.content ++ "\n\n"
  else ""

/-- Concatenation of per-message blocks, in input order. -/
def blocks (f : Message → String) (msgs : List Message) : String :=
  msgs.foldr (fun m acc => f m ++ acc) ""

/-- A message role recognized by the prompt builders. -/
def isKnownRole (m : Message) : Bool :=
  m.role == "system" || m.role == "user" || m.role == "assistant"

/-- Fixture: the user message of the spec's end-to-end scenario. -/
def msgHi : Message := { role := "user", content := "Hi" }

/-- Fixture: the end-to-end request, with `stream` present. -/
def reqHi : ChatRequest :=
  { messages := [msgHi], max_tokens := none, temperature := none
    top_p := none, stream := some true }

/-- Fixture: upstream payload `[{generated_text: "Hello there"}]`. -/
def payloadHello : Payload := .arr [{ generated_text := some "Hello there" }]

/-- Fixture: an upstream oracle that always succeeds with `payloadHello`. -/
def oracleHello : UpstreamBody → UpstreamResult := fun _ => .success payloadHello

/-- Fixture: an upstream oracle failing with a 503-equivalent error. -/
def oracle503 : UpstreamBody → UpstreamResult :=
  fun _ => .failure (some 503) (some "Model is currently loading")
    "Request failed with status code 503"

/-- Fixture: an upstream oracle failing with a 429-equivalent error. -/
def oracle429 : UpstreamBody → UpstreamResult :=
  fun _ => .failure (some 429) none "Request failed with status code 429"

/-- Fixture for C10: a request with one choice of sampling fields. -/
def reqTempA : ChatRequest :=
  { messages := [msgHi], max_tokens := some 64, temperature := some 0.2
    top_p := some 0.5, stream := none }

/-- Fixture for C10: same `messages` and `max_tokens` as `reqTempA`, but
different `temperature` and `top_p`. -/
def reqTempB : ChatRequest :=
  { messages := [msgHi], max_tokens := some 64, temperature := some 1.5
    top_p := some 0.95, stream := none }

/-- Fixture for C4: a marker-free leading segment. -/
def symsPre : List Sym := [Sym.ch 'a', Sym.ch ' ']

/-- Fixture for C4: span content with no closing marker inside. -/
def symsMid : List Sym := [Sym.ch 'r', Sym.openM]

/-- Fixture for C4: a trailing segment. -/
def symsPost : List Sym := [Sym.ch 'b']

/-- Fixture for C4: opener-free text with surrounding whitespace. -/
def symsKeep : List Sym := [Sym.ch ' ', Sym.ch 'h', Sym.closeM, Sym.ch ' ']

/-- Fixture for C1: a list whose roles are all recognized. -/
def msgsKnown : List Message :=
  [{ role := "system", content := "S" }, { role := "user", content := "U" },
   { role := "assistant", content := "A" }]

/-- Fixture for C1: a list containing an unrecognized role. -/
def msgsMixed : List Message :=
  [{ role := "tool", content := "T" }, { role := "user", content := "U" }]

/-! ## Helper lemmas -/

theorem blocks_nil (f : Message → String) : blocks f [] = "" := rfl

theorem blocks_cons (f : Message → String) (m : Message) (ms : List Message) :
    blocks f (m :: ms) = f m ++ blocks f ms := rfl

theorem foldl_append_eq (f : Message → String) (g : String → Message → String)
    (hg : ∀ (a : String) (m : Message), g a m = a ++ f m) :
    ∀ (msgs : List Message) (a : String), List.foldl g a msgs = a ++ blocks f msgs := by
  intro msgs
  induction msgs with
  | nil => intro a; rw [List.foldl_nil, blocks_nil, String.append_empty]
  | cons m ms ih =>
    intro a
    rw [List.foldl_cons, hg, ih, blocks_cons, String.append_assoc]

theorem promptStep_eq (a : String) (m : Message) :
    promptStep a m = a ++ bareSystemBlock m := by
  unfold promptStep bareSystemBlock
  split_ifs <;> simp [String.append_assoc, String.append_empty]

theorem promptStep2_eq (a : String) (m : Message) :
    promptStep2 a m = a ++ taggedBlock m := by
  unfold promptStep2 taggedBlock
  split_ifs <;> simp [String.append_assoc, String.append_empty]

theorem messagesToPrompt_blocks (msgs : List Message) :
    messagesToPrompt msgs = blocks bareSystemBlock msgs ++ "Assistant:" := by
  unfold messagesToPrompt
  rw [foldl_append_eq bareSystemBlock promptStep promptStep_eq msgs "", String.empty_append]

theorem messagesToPrompt2_blocks (msgs : List Message) :
    messagesToPrompt2 msgs = blocks taggedBlock msgs ++ "Assistant:" := by
  unfold messagesToPrompt2
  rw [foldl_append_eq taggedBlock promptStep2 promptStep2_eq msgs "", String.empty_append]

theorem blocks_congr (f g : Message → String) (msgs : List Message)
    (h : ∀ m ∈ msgs, f m = g m) : blocks f msgs = blocks g msgs := by
  induction msgs with
  | nil => rfl
  | cons m ms ih =>
    rw [blocks_cons, blocks_cons, h m (List.mem_cons_self m ms),
      ih fun x hx => h x (List.mem_cons_of_mem m hx)]

theorem taggedBlock_eq_specBlock (m : Message)
    (h : m.role = "system" ∨ m.role = "user" ∨ m.role = "assistant") :
    taggedBlock m = specBlock m := by
  unfold taggedBlock specBlock roleTag
  rcases h with h | h | h <;> rw [h] <;> rfl

theorem blocks_filter_known (f : Message → String)
    (hf : ∀ m, isKnownRole m = false → f m = "") :
    ∀ msgs : List Message, blocks f (msgs.filter isKnownRole) = blocks f msgs := by
  intro msgs
  induction msgs with
  | nil => rfl
  | cons m ms ih =>
    rcases hk : isKnownRole m with _ | _
    · rw [List.filter_cons_of_neg (by simp [hk]), ih, blocks_cons, hf m hk,
        String.empty_append]
    · rw [List.filter_cons_of_pos hk, blocks_cons, blocks_cons, ih]

theorem taggedBlock_unknown (m : Message) (hm : isKnownRole m = false) :
    taggedBlock m = "" := by
  unfold isKnownRole at hm
  simp only [Bool.or_eq_false_iff, beq_eq_false_iff_ne, ne_eq] at hm
  unfold taggedBlock
  rw [if_neg hm.1.1, if_neg hm.1.2, if_neg hm.2]

theorem bareSystemBlock_unknown (m : Message) (hm : isKnownRole m = false) :
    bareSystemBlock m = "" := by
  unfold isKnownRole at hm
  simp only [Bool.or_eq_false_iff, beq_eq_false_iff_ne, ne_eq] at hm
  unfold bareSystemBlock
  rw [if_neg hm.1.1, if_neg hm.1.2, if_neg hm.2]

theorem stripGo_no_open (l : List Sym) (h : Sym.openM ∉ l) : stripGo l none = l := by
  induction l with
  | nil => rfl
  | cons s r ih =>
    have hr : Sym.openM ∉ r := fun hm => h (List.mem_cons_of_mem s hm)
    cases s with
    | ch c => rw [show stripGo (Sym.ch c :: r) none = Sym.ch c :: stripGo r none from rfl, ih hr]
    | openM => exact absurd (List.mem_cons_self _ _) h
    | closeM =>
      rw [show stripGo (Sym.closeM :: r) none = Sym.closeM :: stripGo r none from rfl, ih hr]

theorem stripGo_append_no_open (pre l : List Sym) (h : Sym.openM ∉ pre) :
    stripGo (pre ++ l) none = pre ++ stripGo l none := by
  induction pre with
  | nil => rfl
  | cons s r ih =>
    have hr : Sym.openM ∉ r := fun hm => h (List.mem_cons_of_mem s hm)
    cases s with
    | ch c =>
      rw [List.cons_append,
        show stripGo (Sym.ch c :: (r ++ l)) none = Sym.ch c :: stripGo (r ++ l) none from rfl,
        ih hr, List.cons_append]
    | openM => exact absurd (List.mem_cons_self _ _) h
    | closeM =>
      rw [List.cons_append,
        show stripGo (Sym.closeM :: (r ++ l)) none = Sym.closeM :: stripGo (r ++ l) none from rfl,
        ih hr, List.cons_append]

theorem stripGo_buffer (mid post : List Sym) (h : Sym.closeM ∉ mid) :
    ∀ buf : List Sym, stripGo (mid ++ Sym.closeM :: post) (some buf) = stripGo post none := by
  induction mid with
  | nil => intro buf; rfl
  | cons s r ih =>
    intro buf
    have hr : Sym.closeM ∉ r := fun hm => h (List.mem_cons_of_mem s hm)
    cases s with
    | ch c => exact ih hr (buf ++ [Sym.ch c])
    | openM => exact ih hr (buf ++ [Sym.openM])
    | closeM => exact absurd (List.mem_cons_self _ _) h

theorem strip_removes_span (pre mid post : List Sym)
    (hpre : Sym.openM ∉ pre) (hmid : Sym.closeM ∉ mid) :
    stripSyms (pre ++ Sym.openM :: (mid ++ Sym.closeM :: post)) = pre ++ stripSyms post := by
  unfold stripSyms
  rw [stripGo_append_no_open pre _ hpre]
  congr 1
  exact stripGo_buffer mid post hmid [Sym.openM]

/-! ## Claim theorems -/

/-- Claim C1, counterexample: variant 1 `messagesToPrompt` (server.js
lines 36-45) appends a system message's content with no `System: ` role
tag, so the output is not of the claimed `"{RolePrefix}: {content}"`
form. -/
theorem C1_counterexample :
    messagesToPrompt [{ role := "system", content := "Be brief." }] =
      "Be brief.\n\nAssistant:" ∧
    messagesToPrompt [{ role := "system", content := "Be brief." }] ≠
      "System: Be brief.\n\nAssistant:" := by
  constructor <;> decide

/-- Claim C1, amended: variant 2 appends `"{RolePrefix}: {content}\n\n"`
for each message, with tags `System`/`User`/`Assistant`; variant 1 does
the same except that system messages are appended as bare
`"{content}\n\n"` with no role tag.  In both variants unrecognized roles
are skipped and the output ends with the literal suffix `Assistant:`. -/
theorem C1_amended (msgs rest : List Message)
    (h : ∀ m ∈ msgs, m.role = "system" ∨ m.role = "user" ∨ m.role = "assistant") :
    messagesToPrompt2 msgs = blocks specBlock msgs ++ "Assistant:" ∧
    messagesToPrompt msgs = blocks bareSystemBlock msgs ++ "Assistant:" ∧
    messagesToPrompt2 (rest.filter isKnownRole) = messagesToPrompt2 rest ∧
    messagesToPrompt (rest.filter isKnownRole) = messagesToPrompt rest := by
  refine ⟨?_, messagesToPrompt_blocks msgs, ?_, ?_⟩
  · rw [messagesToPrompt2_blocks msgs,
      blocks_congr taggedBlock specBlock msgs fun m hm => taggedBlock_eq_specBlock m (h m hm)]
  · rw [messagesToPrompt2_blocks, messagesToPrompt2_blocks,
      blocks_filter_known taggedBlock taggedBlock_unknown rest]
  · rw [messagesToPrompt_blocks, messagesToPrompt_blocks,
      blocks_filter_known bareSystemBlock bareSystemBlock_unknown rest]

/-- Witness for C1_amended at a concrete message list. -/
theorem C1_amended_witness :
    messagesToPrompt2 msgsKnown = blocks specBlock msgsKnown ++ "Assistant:" ∧
    messagesToPrompt msgsKnown = blocks bareSystemBlock msgsKnown ++ "Assistant:" ∧
    messagesToPrompt2 (msgsMixed.filter isKnownRole) = messagesToPrompt2 msgsMixed ∧
    messagesToPrompt (msgsMixed.filter isKnownRole) = messagesToPrompt msgsMixed :=
  C1_amended msgsKnown msgsMixed (by decide)

/-- Claim C2, counterexample: variant 2's extraction (server.js line 224)
does not recognize the bare-object or bare-string shapes; for equivalent
content it yields `"No response"` instead of the text the array shape
yields. -/
theorem C2_counterexample :
    extractText2 (Payload.obj (some "Hello there")) = "No response" ∧
    extractText2 (Payload.str "Hello there") = "No response" ∧
    extractText2 payloadHello = "Hello there" ∧
    ("No response" : String) ≠ "Hello there" := by
  refine ⟨rfl, rfl, by decide, by decide⟩

/-- Claim C2, amended: variant 1's extraction (server.js lines 91-102)
recognizes all three documented shapes and yields the same plain string
for equivalent content; variant 2's extraction recognizes only the array
shape and yields the fixed string `"No response"` for object and
bare-string payloads. -/
theorem C2_amended (s t : String) (elems : List JObj) (g : Option String)
    (ht : t ≠ "") :
    extractText (Payload.arr ({ generated_text := some s } :: elems)) = s ∧
    extractText (Payload.obj (some s)) = s ∧
    extractText (Payload.str s) = s ∧
    extractText2 (Payload.arr ({ generated_text := some t } :: elems)) = t ∧
    extractText2 (Payload.obj g) = "No response" ∧
    extractText2 (Payload.str s) = "No response" := by
  refine ⟨?_, ?_, rfl, ?_, rfl, rfl⟩
  · show jsOr s "" = s
    unfold jsOr
    split_ifs with h0
    · exact h0.symm
    · rfl
  · show (if s = "" then "" else s) = s
    split_ifs with h0
    · exact h0.symm
    · rfl
  · show jsOr t "No response" = t
    unfold jsOr
    rw [if_neg ht]

/-- Witness for C2_amended at concrete payload contents. -/
theorem C2_amended_witness :
    extractText (Payload.arr ({ generated_text := some "Hello there" } :: [])) = "Hello there" ∧
    extractText (Payload.obj (some "Hello there")) = "Hello there" ∧
    extractText (Payload.str "Hello there") = "Hello there" ∧
    extractText2 (Payload.arr ({ generated_text := some "Hi" } :: [])) = "Hi" ∧
    extractText2 (Payload.obj none) = "No response" ∧
    extractText2 (Payload.str "Hello there") = "No response" :=
  C2_amended "Hello there" "Hi" [] none (by decide)

/-- Claim C3, counterexample: variant 2 (server.js line 224) substitutes
the fixed string `"No response"`, not the apology, and only when the
extracted text is falsy; a whitespace-only `generated_text` is passed
through to the assistant message unchanged. -/
theorem C3_counterexample :
    extractText2 (Payload.arr [{ generated_text := some " " }]) = " " ∧
    jsTrim " " = "" ∧
    (" " : String) ≠ apology ∧
    extractText2 (Payload.arr []) = "No response" ∧
    ("No response" : String) ≠ apology ∧
    (handleChat2 true 0 reqHi
      (fun _ => .success (Payload.arr [{ generated_text := some " " }]))).1 =
      .ok (mkChatResponse 0 " ") := by
  refine ⟨by decide, by decide, by decide, rfl, by decide, by decide⟩

/-- Claim C3, amended: variant 1 (server.js lines 106-108) substitutes
the fixed apology whenever the extracted text is empty or
whitespace-only, so its assistant content is never empty nor
whitespace-only; variant 2 substitutes the fixed string `"No response"`
only when extraction yields no text, so its content is never the empty
string, but whitespace-only content is passed through. -/
theorem C3_amended (p q : Payload) (h : jsTrim (extractText q) = "") :
    normalizeText q = apology ∧
    normalizeText p ≠ "" ∧
    jsTrim (normalizeText p) ≠ "" ∧
    extractText2 p ≠ "" := by
  refine ⟨?_, ?_, ?_, ?_⟩
  · show (if extractText q = "" ∨ jsTrim (extractText q) = "" then apology
      else extractText q) = apology
    rw [if_pos (Or.inr h)]
  · show (if extractText p = "" ∨ jsTrim (extractText p) = "" then apology
      else extractText p) ≠ ""
    split_ifs with hc
    · decide
    · push_neg at hc
      exact hc.1
  · show jsTrim (if extractText p = "" ∨ jsTrim (extractText p) = "" then apology
      else extractText p) ≠ ""
    split_ifs with hc
    · decide
    · push_neg at hc
      exact hc.2
  · cases p with
    | arr elems =>
      cases elems with
      | nil => decide
      | cons o r =>
        show jsOr (o.generated_text.getD "") "No response" ≠ ""
        unfold jsOr
        split_ifs with h0
        · decide
        · exact h0
    | obj g => exact (by decide : ("No response" : String) ≠ "")
    | str s => exact (by decide : ("No response" : String) ≠ "")

/-- Witness for C3_amended at concrete payloads. -/
theorem C3_amended_witness :
    normalizeText (Payload.arr []) = apology ∧
    normalizeText (Payload.str "x") ≠ "" ∧
    jsTrim (normalizeText (Payload.str "x")) ≠ "" ∧
    extractText2 (Payload.str "x") ≠ "" :=
  C3_amended (Payload.str "x") (Payload.arr []) (by decide)

/-- Claim C4 (stripReasoning, modelled from the spec since no variant
under `src/` implements it): with `showReasoning = true` the text is
returned unchanged; with `false`, a span delimited by a well-formed
opening and matching closing marker is removed non-greedily, the
surrounding text is otherwise untouched, and surrounding whitespace is
trimmed (marker-free text is only trimmed). -/
theorem C4_stripReasoning (t keep pre mid post : List Sym)
    (hpre : Sym.openM ∉ pre) (hmid : Sym.closeM ∉ mid) (hkeep : Sym.openM ∉ keep) :
    stripReasoning t true = t ∧
    stripSyms (pre ++ Sym.openM :: (mid ++ Sym.closeM :: post)) = pre ++ stripSyms post ∧
    stripReasoning keep false = trimSyms keep := by
  refine ⟨rfl, strip_removes_span pre mid post hpre hmid, ?_⟩
  show trimSyms (stripSyms keep) = trimSyms keep
  rw [show stripSyms keep = keep from stripGo_no_open keep hkeep]

/-- Witness for C4_stripReasoning at concrete symbol lists. -/
theorem C4_witness :
    stripReasoning symsKeep true = symsKeep ∧
    stripSyms (symsPre ++ Sym.openM :: (symsMid ++ Sym.closeM :: symsPost)) =
      symsPre ++ stripSyms symsPost ∧
    stripReasoning symsKeep false = trimSyms symsKeep :=
  C4_stripReasoning symsKeep symsKeep symsPre symsMid symsPost
    (by decide) (by decide) (by decide)

/-- Claim C5, counterexample: a request with `stream: true` is answered
with the single non-streaming `chat.completion` JSON object, identical to
the `stream: false` answer; no server-sent-event stream is produced. -/
theorem C5_counterexample :
    (handleChat true 7 reqHi oracleHello).1 = .ok (mkChatResponse 7 "Hello there") ∧
    (mkChatResponse 7 "Hello there").object = "chat.completion" ∧
    handleChat true 7 reqHi oracleHello =
      handleChat true 7 { reqHi with stream := some false } oracleHello := by
  refine ⟨by decide, rfl, rfl⟩

/-- Claim C5, amended: both handlers ignore the `stream` field entirely;
every chat request that succeeds upstream receives the one-shot JSON
`ChatResponse` of C9, with no event stream and no `[DONE]` terminator. -/
theorem C5_amended (now : Nat) (req : ChatRequest)
    (u : UpstreamBody → UpstreamResult) (b : Option Bool) (p : Payload) :
    handleChat true now { req with stream := b } u = handleChat true now req u ∧
    handleChat2 true now { req with stream := b } u = handleChat2 true now req u ∧
    (handleChat true now req (fun _ => .success p)).1 =
      .ok (mkChatResponse now (normalizeText p)) ∧
    (handleChat2 true now req (fun _ => .success p)).1 =
      .ok (mkChatResponse now (extractText2 p)) :=
  ⟨rfl, rfl, rfl, rfl⟩

/-- Claim C6, counterexample: with the credential absent the handler does
return HTTP 500 without calling upstream, but the error body is
`{error:{message}}` with no `type` field, so no `configuration_error`
type is present. -/
theorem C6_counterexample :
    handleChat false 0 reqHi oracleHello =
      (.err 500 { message := "HF_API_KEY not set", type := none, code := none }, false) ∧
    ErrorBody.type { message := "HF_API_KEY not set", type := none, code := none } ≠
      some "configuration_error" := by
  refine ⟨rfl, by decide⟩

/-- Claim C6, amended: with the credential absent, every chat request of
either variant immediately yields HTTP 500 with the bare error message
`HF_API_KEY not set` (no `type` field), the upstream oracle is never
consulted, and no outbound call is made. -/
theorem C6_amended (now : Nat) (req : ChatRequest)
    (u v : UpstreamBody → UpstreamResult) :
    handleChat false now req u =
      (.err 500 { message := "HF_API_KEY not set", type := none, code := none }, false) ∧
    handleChat false now req u = handleChat false now req v ∧
    handleChat2 false now req u =
      (.err 500 { message := "HF_API_KEY not set", type := none, code := none }, false) :=
  ⟨rfl, rfl, rfl⟩

/-- Claim C7, counterexample: an upstream 503-equivalent failure is
surfaced as HTTP 500, not 503, and a 429-equivalent failure as HTTP 500,
not 429. -/
theorem C7_counterexample :
    (handleChat true 0 reqHi oracle503).1 =
      .err 500 { message := "Model is currently loading", type := none, code := none } ∧
    (500 : Nat) ≠ 503 ∧
    (handleChat true 0 reqHi oracle429).1 =
      .err 500 { message := "Request failed with status code 429", type := none, code := none } ∧
    (500 : Nat) ≠ 429 := by
  refine ⟨rfl, by decide, rfl, by decide⟩

/-- Claim C7, amended: every upstream failure, whatever its status, is
surfaced by both variants as HTTP 500 with message
`error.response?.data?.error || error.message`; nothing is retried (the
handlers consult the upstream oracle once). -/
theorem C7_amended (now : Nat) (req : ChatRequest) (st : Option Nat)
    (de : Option String) (msg : String) :
    (handleChat true now req (fun _ => .failure st de msg)).1 =
      .err 500 { message := catchMessage de msg, type := none, code := none } ∧
    (handleChat2 true now req (fun _ => .failure st de msg)).1 =
      .err 500 { message := catchMessage de msg, type := none, code := none } :=
  ⟨rfl, rfl⟩

/-- Claim C8, counterexample: `GET /foo` does reach the catch-all and
gets HTTP 404, but the body is `{error:{message}}` only — there is no
`type: "invalid_request_error"` and no `code: 404` field. -/
theorem C8_counterexample :
    serve .get "/foo" true 0 reqHi oracleHello =
      .notFound 404 { message := "Path /foo not found", type := none, code := none } ∧
    ErrorBody.type { message := "Path /foo not found", type := none, code := none } ≠
      some "invalid_request_error" ∧
    ErrorBody.code { message := "Path /foo not found", type := none, code := none } ≠
      some 404 := by
  refine ⟨by decide, by decide, by decide⟩

/-- Claim C8, amended: every request whose method/path matches no
registered route is answered by the catch-all with HTTP 404 and the JSON
body `{error:{message: "Path <path> not found"}}`, with no `type` and no
`code` field. -/
theorem C8_amended (m : Method) (p : String) (hasKey : Bool) (now : Nat)
    (req : ChatRequest) (u : UpstreamBody → UpstreamResult)
    (h : route m p = .notFound) :
    serve m p hasKey now req u =
      .notFound 404 { message := "Path " ++ p ++ " not found", type := none, code := none } := by
  unfold serve
  rw [h]

/-- Witness for C8_amended at `GET /foo`. -/
theorem C8_amended_witness :
    serve .get "/foo" false 3 reqHi oracleHello =
      .notFound 404
        { message := "Path " ++ "/foo" ++ " not found", type := none, code := none } :=
  C8_amended .get "/foo" false 3 reqHi oracleHello (by decide)

/-- Claim C9: a non-streaming chat request that succeeds upstream yields
exactly one choice with role `assistant`, the extracted text as content,
and finish_reason `stop`; for the upstream payload
`[{generated_text:"Hello there"}]` the content is `"Hello there"` in both
variants. -/
theorem C9_response_shape (now : Nat) (req : ChatRequest) (p : Payload) :
    (handleChat true now req (fun _ => .success p)).1 =
      .ok (mkChatResponse now (normalizeText p)) ∧
    (mkChatResponse now (normalizeText p)).choices =
      [{ index := 0
         message := { role := "assistant", content := normalizeText p }
         finish_reason := "stop" }] ∧
    (handleChat2 true now req (fun _ => .success p)).1 =
      .ok (mkChatResponse now (extractText2 p)) ∧
    normalizeText payloadHello = "Hello there" ∧
    extractText2 payloadHello = "Hello there" := by
  refine ⟨rfl, rfl, rfl, by decide, by decide⟩

/-- Claim C10: the outbound upstream body is built from `messages` and
`max_tokens` only, with fixed sampling parameters — temperature 0.7 in
both variants (plus top_p 0.9 in variant 1) — so two requests differing
only in `temperature` or `top_p` produce identical outbound payloads. -/
theorem C10_sampling_fixed (r1 r2 : ChatRequest)
    (hm : r1.messages = r2.messages) (ht : r1.max_tokens = r2.max_tokens) :
    buildUpstreamBody r1 = buildUpstreamBody r2 ∧
    buildUpstreamBody2 r1 = buildUpstreamBody2 r2 ∧
    (buildUpstreamBody r1).parameters.temperature = 0.7 ∧
    (buildUpstreamBody2 r1).parameters.temperature = 0.7 ∧
    (buildUpstreamBody r1).parameters.top_p = some 0.9 := by
  refine ⟨?_, ?_, rfl, rfl, rfl⟩
  · unfold buildUpstreamBody
    rw [hm, ht]
  · unfold buildUpstreamBody2
    rw [hm, ht]

/-- Witness for C10_sampling_fixed: two concrete requests that differ in
`temperature` and `top_p` but agree on `messages` and `max_tokens`. -/
theorem C10_witness :
    reqTempA.temperature ≠ reqTempB.temperature ∧
    (buildUpstreamBody reqTempA = buildUpstreamBody reqTempB ∧
     buildUpstreamBody2 reqTempA = buildUpstreamBody2 reqTempB ∧
     (buildUpstreamBody reqTempA).parameters.temperature = 0.7 ∧
     (buildUpstreamBody2 reqTempA).parameters.temperature = 0.7 ∧
     (buildUpstreamBody reqTempA).parameters.top_p = some 0.9) := by
  refine ⟨?_, C10_sampling_fixed reqTempA reqTempB rfl rfl⟩
  show (some (0.2 : ℚ)) ≠ some (1.5 : ℚ)
  simp only [ne_eq, Option.some.injEq]
  norm_num

end Server
